import Mathlib

/-!
Verification of the Nefino MCP news-retrieval tool handler.

The embedded code:
- `src/src/enums.py` — the three string enumerations and their wire values;
- `src/src/server.py` — `retrieve_news_items_for_place` (namespace `Src`);
- `src/src/mcp_nefino/server.py` — `retrieve_news_items_for_place`
  (namespace `McpNefino`).

The validation module (`validation.py`) is imported by both servers but is
not part of the sources, so its three functions are modelled from the
specification (see their doc comments).

Effects are made explicit: the external fetch collaborator `client.get_news`
is an oracle of type `GetNewsCall → Except String String` (an exception
message or a payload); a handler run returns a `HandlerOutcome` recording the
string result and the downstream call that was made, if any.  Logging and
lifespan-context plumbing are out of scope per the specification and carry no
modelled state.
-/

/-- `PlaceTypeNews` from `src/src/enums.py`. -/
inductive PlaceTypeNews
  | PLANNING_REGIONS
  | COUNTY
  | ADMINISTRATIVE_UNIT
  | LOCAL_ADMINISTRATIVE_UNITS
deriving DecidableEq, Repr

/-- The `.value` wire string of each `PlaceTypeNews` member. -/
def PlaceTypeNews.value : PlaceTypeNews → String
  | .PLANNING_REGIONS => "PR"
  | .COUNTY => "CTY"
  | .ADMINISTRATIVE_UNIT => "AU"
  | .LOCAL_ADMINISTRATIVE_UNITS => "LAU"

/-- `RangeOrRecency` from `src/src/enums.py`. -/
inductive RangeOrRecency
  | RANGE
  | RECENCY
deriving DecidableEq, Repr

/-- The `.value` wire string of each `RangeOrRecency` member. -/
def RangeOrRecency.value : RangeOrRecency → String
  | .RANGE => "RANGE"
  | .RECENCY => "RECENCY"

/-- `NewsTopic` from `src/src/enums.py`. -/
inductive NewsTopic
  | BATTERY_STORAGE
  | GRID_EXPANSION
  | SOLAR
  | HYDROGEN
  | WIND
deriving DecidableEq, Repr

/-- The `.value` wire string of each `NewsTopic` member. -/
def NewsTopic.value : NewsTopic → String
  | .BATTERY_STORAGE => "batteryStorage"
  | .GRID_EXPANSION => "gridExpansion"
  | .SOLAR => "solar"
  | .HYDROGEN => "hydrogen"
  | .WIND => "wind"

/-- Numeric value of a decimal digit character. -/
def digitVal (c : Char) : Nat := c.toNat - 48

/-- Modelled from the spec: leap-year rule used by `validate_date_format`
(`validation.py` is not among the sources); Gregorian rule, §4.1 "leap years
respected". -/
def leapYear (y : Nat) : Bool :=
  (y % 4 == 0 && y % 100 != 0) || y % 400 == 0

/-- Modelled from the spec: day count of a month, used by
`validate_date_format` (§4.1: "valid month (1–12) and day-of-month for that
month/year"). -/
def daysInMonth (y m : Nat) : Nat :=
  if m == 2 then (if leapYear y then 29 else 28)
  else if m == 4 || m == 6 || m == 9 || m == 11 then 30
  else 31

/-- Modelled from the spec: parse an ISO `YYYY-MM-DD` string into
`(year, month, day)`; `none` on any malformed input (wrong length, wrong
separators, non-numeric fields, month outside 1–12, day outside the month's
range). -/
def parseDate (s : String) : Option (Nat × Nat × Nat) :=
  match s.toList with
  | [y1, y2, y3, y4, s1, m1, m2, s2, d1, d2] =>
    if y1.isDigit && y2.isDigit && y3.isDigit && y4.isDigit
        && s1 == '-' && m1.isDigit && m2.isDigit
        && s2 == '-' && d1.isDigit && d2.isDigit then
      let y := ((digitVal y1 * 10 + digitVal y2) * 10 + digitVal y3) * 10 + digitVal y4
      let m := digitVal m1 * 10 + digitVal m2
      let d := digitVal d1 * 10 + digitVal d2
      if decide (1 ≤ m) && decide (m ≤ 12) && decide (1 ≤ d)
          && decide (d ≤ daysInMonth y m) then
        some (y, m, d)
      else none
    else none
  | _ => none

/-- Modelled from the spec: `validate_date_format` of the missing
`validation.py` (§4.1): true iff the value parses as an ISO calendar date
`YYYY-MM-DD` with valid month and day (leap years respected); null or empty
input is invalid. -/
def validate_date_format : Option String → Bool
  | none => false
  | some s => (parseDate s).isSome

/-- Strictly-after test on `(year, month, day)` triples. -/
def dateAfter (d1 d2 : Nat × Nat × Nat) : Bool :=
  Nat.blt d2.1 d1.1
    || (d2.1 == d1.1
        && (Nat.blt d2.2.1 d1.2.1
            || (d2.2.1 == d1.2.1 && Nat.blt d2.2.2 d1.2.2)))

/-- Modelled from the spec: `validate_date_range` of the missing
`validation.py` (§4.1): both inputs are already well-formed dates when it is
called; it fails with a descriptive message iff `begin` is strictly after
`end`, and succeeds otherwise (equal dates valid).  On success the message
component is the empty string (the source's null). -/
def validate_date_range (b e : Option String) : Bool × String :=
  match Option.bind b parseDate, Option.bind e parseDate with
  | some db, some de =>
      if dateAfter db de then
        (false, "start date must not be after end date")
      else (true, "")
  | _, _ => (true, "")

/-- Modelled from the spec: `validate_last_n_days` of the missing
`validation.py` (§4.1, §9): fails if the value is absent or not a positive
integer; the source imposes no upper ceiling.  On success the message
component is the empty string (the source's null). -/
def validate_last_n_days : Option Int → Bool × String
  | none => (false, "last_n_days must be a positive integer")
  | some n =>
      if decide (1 ≤ n) then (true, "")
      else (false, "last_n_days must be a positive integer")

/-- The caller-supplied parameter set of the `GetNews` tool
(`retrieve_news_items_for_place`'s parameters after `ctx`). -/
structure GetNewsArgs where
  place_id : String
  place_type : PlaceTypeNews
  range_or_recency : Option RangeOrRecency
  last_n_days : Option Int
  date_range_begin : Option String
  date_range_end : Option String
  news_topics : Option (List NewsTopic)
deriving DecidableEq, Repr

/-- The normalized parameter set delegated to `client.get_news` (all
enumerations in wire-string form). -/
structure GetNewsCall where
  place_id : String
  place_type : String
  range_or_recency : Option String
  last_n_days : Option Int
  date_range_begin : Option String
  date_range_end : Option String
  news_topics : Option (List String)
deriving DecidableEq, Repr

/-- Observable outcome of one handler invocation: the returned string and the
downstream `client.get_news` call, `none` when no call was made. -/
structure HandlerOutcome where
  result : String
  call : Option GetNewsCall
deriving DecidableEq, Repr

/-- The enum-to-wire conversions (server.py lines 87–92) and the keyword
arguments of the `client.get_news` call (lines 95–103), gathered into one
record.  `str_place_type` is `place_type.value`; `str_range_or_recency` is
`range_or_recency.value if range_or_recency else None`; `str_news_topics` is
`[topic.value for topic in news_topics] if news_topics else None` — Python
truthiness makes both `None` and the empty list fall to `None`.  `ldn`,
`drb`, `dre` are the possibly-cleared local values of `last_n_days`,
`date_range_begin`, `date_range_end` at the call site. -/
def normalizedCall (a : GetNewsArgs) (ldn : Option Int) (drb dre : Option String) :
    GetNewsCall :=
  { place_id := a.place_id
    place_type := a.place_type.value
    range_or_recency := Option.map RangeOrRecency.value a.range_or_recency
    last_n_days := ldn
    date_range_begin := drb
    date_range_end := dre
    news_topics :=
      match a.news_topics with
      | some topics => if topics.isEmpty then none else some (topics.map NewsTopic.value)
      | none => none }

/-- The shared tail of both handlers (server.py lines 85–108 and
mcp_nefino/server.py lines 78–101): delegation of the normalized call to
`client.get_news`, and the `try/except` boundary around it. -/
def delegate (get_news : GetNewsCall → Except String String) (a : GetNewsArgs)
    (ldn : Option Int) (drb dre : Option String) : HandlerOutcome :=
  match get_news (normalizedCall a ldn drb dre) with
  | Except.ok result => { result := result, call := some (normalizedCall a ldn drb dre) }
  | Except.error e =>
      { result := "Failed to retrieve news: " ++ e, call := some (normalizedCall a ldn drb dre) }

namespace Src

/-- Embedding of `retrieve_news_items_for_place` from `src/src/server.py`
(lines 59–108).  The validation branches mirror the source's
`if/elif` on `range_or_recency`; the Python locals cleared in a branch become
the arguments handed to the shared tail `delegate`.  The `try/except` that
wraps the body catches only the delegation, the sole fallible step in the
model (validators are pure; logging is out of scope). -/
def retrieve_news_items_for_place (get_news : GetNewsCall → Except String String)
    (a : GetNewsArgs) : HandlerOutcome :=
  match a.range_or_recency with
  | some RangeOrRecency.RECENCY =>
    let vr := validate_last_n_days a.last_n_days
    if !vr.1 then
      { result := "Validation error in RangeOrRecency.RECENCY: " ++ vr.2, call := none }
    else
      delegate get_news a a.last_n_days none none
  | some RangeOrRecency.RANGE =>
    if !validate_date_format a.date_range_begin
        || !validate_date_format a.date_range_end then
      { result := "Validation error: Invalid date format. Use YYYY-MM-DD", call := none }
    else
      let vr := validate_date_range a.date_range_begin a.date_range_end
      if !vr.1 then
        { result := "Validation error in RangeOrRecency.RANGE: " ++ vr.2, call := none }
      else
        delegate get_news a none a.date_range_begin a.date_range_end
  | none =>
    delegate get_news a a.last_n_days a.date_range_begin a.date_range_end

end Src

namespace McpNefino

/-- Embedding of `retrieve_news_items_for_place` from
`src/src/mcp_nefino/server.py` (lines 49–101).  The source differs from
`src/src/server.py` only in glue outside the modelled state: it sends log
messages and reads the client from the lifespan context before validating
rather than after; neither affects the validation outcome, the result string,
or the delegated parameter set. -/
def retrieve_news_items_for_place (get_news : GetNewsCall → Except String String)
    (a : GetNewsArgs) : HandlerOutcome :=
  match a.range_or_recency with
  | some RangeOrRecency.RECENCY =>
    let vr := validate_last_n_days a.last_n_days
    if !vr.1 then
      { result := "Validation error in RangeOrRecency.RECENCY: " ++ vr.2, call := none }
    else
      delegate get_news a a.last_n_days none none
  | some RangeOrRecency.RANGE =>
    if !validate_date_format a.date_range_begin
        || !validate_date_format a.date_range_end then
      { result := "Validation error: Invalid date format. Use YYYY-MM-DD", call := none }
    else
      let vr := validate_date_range a.date_range_begin a.date_range_end
      if !vr.1 then
        { result := "Validation error in RangeOrRecency.RANGE: " ++ vr.2, call := none }
      else
        delegate get_news a none a.date_range_begin a.date_range_end
  | none =>
    delegate get_news a a.last_n_days a.date_range_begin a.date_range_end

end McpNefino

/-- An always-succeeding fetch collaborator, for concrete runs. -/
def okNews : GetNewsCall → Except String String := fun _ => Except.ok "payload"

/-- An always-raising fetch collaborator, for concrete runs. -/
def failNews : GetNewsCall → Except String String := fun _ => Except.error "boom"

/-- Concrete invocation: no date-selection mode, but recency and range values
supplied anyway. -/
def argsPassThrough : GetNewsArgs :=
  { place_id := "123"
    place_type := PlaceTypeNews.COUNTY
    range_or_recency := none
    last_n_days := some 5
    date_range_begin := some "2024-01-01"
    date_range_end := some "2024-02-02"
    news_topics := none }

/-- Concrete invocation: RECENCY mode with a valid window and stray date
values supplied anyway (spec §8's first scenario, plus topics). -/
def argsRecency : GetNewsArgs :=
  { place_id := "123"
    place_type := PlaceTypeNews.PLANNING_REGIONS
    range_or_recency := some RangeOrRecency.RECENCY
    last_n_days := some 7
    date_range_begin := some "2020-01-01"
    date_range_end := some "2020-02-02"
    news_topics := some [NewsTopic.SOLAR, NewsTopic.WIND] }

/-- Concrete invocation: RECENCY mode with the window absent (invalid). -/
def argsRecencyBad : GetNewsArgs :=
  { place_id := "123"
    place_type := PlaceTypeNews.PLANNING_REGIONS
    range_or_recency := some RangeOrRecency.RECENCY
    last_n_days := none
    date_range_begin := none
    date_range_end := none
    news_topics := none }

/-- Concrete invocation: RANGE mode with valid ordered dates and a stray
`last_n_days` supplied anyway. -/
def argsRangeValid : GetNewsArgs :=
  { place_id := "123"
    place_type := PlaceTypeNews.COUNTY
    range_or_recency := some RangeOrRecency.RANGE
    last_n_days := some 9
    date_range_begin := some "2024-01-01"
    date_range_end := some "2024-02-02"
    news_topics := none }

/-- Concrete invocation: RANGE mode with an inverted date pair (spec §8's
ordering-failure scenario). -/
def argsRangeInverted : GetNewsArgs :=
  { place_id := "123"
    place_type := PlaceTypeNews.COUNTY
    range_or_recency := some RangeOrRecency.RANGE
    last_n_days := none
    date_range_begin := some "2024-01-01"
    date_range_end := some "2023-01-01"
    news_topics := none }

/-- Concrete invocation: RANGE mode with a malformed begin date (spec §8's
format-failure scenario). -/
def argsRangeBadFormat : GetNewsArgs :=
  { place_id := "123"
    place_type := PlaceTypeNews.LOCAL_ADMINISTRATIVE_UNITS
    range_or_recency := some RangeOrRecency.RANGE
    last_n_days := none
    date_range_begin := some "bad-date"
    date_range_end := some "2024-01-01"
    news_topics := none }

/-- Concrete invocation: empty `place_id`, otherwise valid, no mode. -/
def argsEmptyPlace : GetNewsArgs :=
  { place_id := ""
    place_type := PlaceTypeNews.COUNTY
    range_or_recency := none
    last_n_days := none
    date_range_begin := none
    date_range_end := none
    news_topics := none }

/-- Splitting a concatenated literal: if `p ++ q = r` then `r ++ e`
decomposes as `p ++ (q ++ e)`. -/
theorem append_split (p q r e : String) (h : p ++ q = r) : r ++ e = p ++ (q ++ e) := by
  rw [← h]
  apply String.ext
  simp [String.data_append]

/-- `delegate` always records the normalized call it made. -/
theorem delegate_call (g : GetNewsCall → Except String String) (a : GetNewsArgs)
    (ldn : Option Int) (drb dre : Option String) :
    (delegate g a ldn drb dre).call = some (normalizedCall a ldn drb dre) := by
  unfold delegate
  cases hg : g (normalizedCall a ldn drb dre) <;> rfl

/-- The call recorded by `delegate` is the normalized call. -/
theorem delegate_call_inv (g : GetNewsCall → Except String String) (a : GetNewsArgs)
    (ldn : Option Int) (drb dre : Option String) (c : GetNewsCall)
    (hc : (delegate g a ldn drb dre).call = some c) : c = normalizedCall a ldn drb dre := by
  rw [delegate_call] at hc
  exact (Option.some.injEq _ _ ▸ hc).symm

/-- When the collaborator succeeds, `delegate` returns the payload unchanged. -/
theorem delegate_ok (g : GetNewsCall → Except String String) (a : GetNewsArgs)
    (ldn : Option Int) (drb dre : Option String) (r : String)
    (hg : g (normalizedCall a ldn drb dre) = Except.ok r) :
    delegate g a ldn drb dre
      = { result := r, call := some (normalizedCall a ldn drb dre) } := by
  unfold delegate
  rw [hg]

/-- When the collaborator raises, `delegate` returns the boundary string. -/
theorem delegate_err (g : GetNewsCall → Except String String) (a : GetNewsArgs)
    (ldn : Option Int) (drb dre : Option String) (e : String)
    (hg : g (normalizedCall a ldn drb dre) = Except.error e) :
    delegate g a ldn drb dre
      = { result := "Failed to retrieve news: " ++ e
          call := some (normalizedCall a ldn drb dre) } := by
  unfold delegate
  rw [hg]

/-- If the collaborator raises on the recorded call, the delegation result is
the boundary string. -/
theorem delegate_error_result (g : GetNewsCall → Except String String) (a : GetNewsArgs)
    (ldn : Option Int) (drb dre : Option String) (c : GetNewsCall) (e : String)
    (hc : (delegate g a ldn drb dre).call = some c) (he : g c = Except.error e) :
    (delegate g a ldn drb dre).result = "Failed to retrieve news: " ++ e := by
  have hcn := delegate_call_inv g a ldn drb dre c hc
  subst hcn
  rw [delegate_err g a ldn drb dre e he]

/-- Branch lemma: `range_or_recency` absent takes the no-filtering path with
every parameter passed through. -/
theorem src_mode_none (g : GetNewsCall → Except String String) (a : GetNewsArgs)
    (h : a.range_or_recency = none) :
    Src.retrieve_news_items_for_place g a
      = delegate g a a.last_n_days a.date_range_begin a.date_range_end := by
  unfold Src.retrieve_news_items_for_place
  rw [h]

/-- Branch lemma: RECENCY with a valid window clears both date fields. -/
theorem src_mode_recency_valid (g : GetNewsCall → Except String String) (a : GetNewsArgs)
    (h : a.range_or_recency = some RangeOrRecency.RECENCY)
    (hv : (validate_last_n_days a.last_n_days).1 = true) :
    Src.retrieve_news_items_for_place g a = delegate g a a.last_n_days none none := by
  unfold Src.retrieve_news_items_for_place
  rw [h]
  simp [hv]

/-- Branch lemma: RECENCY with an invalid window reports and stops. -/
theorem src_mode_recency_invalid (g : GetNewsCall → Except String String) (a : GetNewsArgs)
    (h : a.range_or_recency = some RangeOrRecency.RECENCY)
    (hv : (validate_last_n_days a.last_n_days).1 = false) :
    Src.retrieve_news_items_for_place g a
      = { result := "Validation error in RangeOrRecency.RECENCY: "
            ++ (validate_last_n_days a.last_n_days).2
          call := none } := by
  unfold Src.retrieve_news_items_for_place
  rw [h]
  simp [hv]

/-- Branch lemma: RANGE with a malformed date reports the format error and
stops before the ordering check. -/
theorem src_mode_range_badformat (g : GetNewsCall → Except String String) (a : GetNewsArgs)
    (h : a.range_or_recency = some RangeOrRecency.RANGE)
    (hf : validate_date_format a.date_range_begin = false
      ∨ validate_date_format a.date_range_end = false) :
    Src.retrieve_news_items_for_place g a
      = { result := "Validation error: Invalid date format. Use YYYY-MM-DD"
          call := none } := by
  unfold Src.retrieve_news_items_for_place
  rw [h]
  rcases hf with hf | hf <;> simp [hf]

/-- Branch lemma: RANGE with well-formed but inverted dates reports the
ordering error and stops. -/
theorem src_mode_range_inverted (g : GetNewsCall → Except String String) (a : GetNewsArgs)
    (h : a.range_or_recency = some RangeOrRecency.RANGE)
    (hf1 : validate_date_format a.date_range_begin = true)
    (hf2 : validate_date_format a.date_range_end = true)
    (hr : (validate_date_range a.date_range_begin a.date_range_end).1 = false) :
    Src.retrieve_news_items_for_place g a
      = { result := "Validation error in RangeOrRecency.RANGE: "
            ++ (validate_date_range a.date_range_begin a.date_range_end).2
          call := none } := by
  unfold Src.retrieve_news_items_for_place
  rw [h]
  simp [hf1, hf2, hr]

/-- Branch lemma: RANGE with valid dates clears `last_n_days` and delegates. -/
theorem src_mode_range_valid (g : GetNewsCall → Except String String) (a : GetNewsArgs)
    (h : a.range_or_recency = some RangeOrRecency.RANGE)
    (hf1 : validate_date_format a.date_range_begin = true)
    (hf2 : validate_date_format a.date_range_end = true)
    (hr : (validate_date_range a.date_range_begin a.date_range_end).1 = true) :
    Src.retrieve_news_items_for_place g a
      = delegate g a none a.date_range_begin a.date_range_end := by
  unfold Src.retrieve_news_items_for_place
  rw [h]
  simp [hf1, hf2, hr]

/-- Claim C1, counterexample: with `range_or_recency` absent but
`last_n_days = 5` and a date pair supplied, the delegated call carries the
supplied values — not `None` as the claim requires.  The handler clears
neither field on the no-mode path. -/
theorem C1_counterexample :
    (Src.retrieve_news_items_for_place okNews argsPassThrough).call.map
        GetNewsCall.last_n_days = some (some 5)
    ∧ (Src.retrieve_news_items_for_place okNews argsPassThrough).call.map
        GetNewsCall.date_range_begin = some (some "2024-01-01")
    ∧ (Src.retrieve_news_items_for_place okNews argsPassThrough).call.map
        GetNewsCall.date_range_end = some (some "2024-02-02") := by
  decide

/-- Claim C1 as amended: when `range_or_recency` is absent, the handler
passes `last_n_days`, `date_range_begin`, and `date_range_end` downstream
unchanged — they are absent in the delegated call exactly when the caller
supplied them absent, and a supplied value is forwarded as is. -/
theorem C1_no_mode_passes_supplied_values (g : GetNewsCall → Except String String)
    (a : GetNewsArgs) (h : a.range_or_recency = none) :
    (Src.retrieve_news_items_for_place g a).call.map
        GetNewsCall.last_n_days = some a.last_n_days
    ∧ (Src.retrieve_news_items_for_place g a).call.map
        GetNewsCall.date_range_begin = some a.date_range_begin
    ∧ (Src.retrieve_news_items_for_place g a).call.map
        GetNewsCall.date_range_end = some a.date_range_end := by
  rw [src_mode_none g a h, delegate_call]
  exact ⟨rfl, rfl, rfl⟩

/-- Claim C1, witness for the amended theorem at a concrete no-mode
invocation. -/
theorem C1_witness :
    (Src.retrieve_news_items_for_place okNews argsPassThrough).call.map
        GetNewsCall.last_n_days = some argsPassThrough.last_n_days
    ∧ (Src.retrieve_news_items_for_place okNews argsPassThrough).call.map
        GetNewsCall.date_range_begin = some argsPassThrough.date_range_begin
    ∧ (Src.retrieve_news_items_for_place okNews argsPassThrough).call.map
        GetNewsCall.date_range_end = some argsPassThrough.date_range_end :=
  C1_no_mode_passes_supplied_values okNews argsPassThrough rfl

/-- Claim C2: under RECENCY with a valid window the delegated call has both
date-range fields absent regardless of what was supplied for them, and under
RANGE with valid dates the delegated call has `last_n_days` absent regardless
of what was supplied for it. -/
theorem C2_mode_exclusivity (g : GetNewsCall → Except String String) (a : GetNewsArgs) :
    (a.range_or_recency = some RangeOrRecency.RECENCY →
      (validate_last_n_days a.last_n_days).1 = true →
      (Src.retrieve_news_items_for_place g a).call.map
          GetNewsCall.date_range_begin = some none
      ∧ (Src.retrieve_news_items_for_place g a).call.map
          GetNewsCall.date_range_end = some none)
    ∧ (a.range_or_recency = some RangeOrRecency.RANGE →
      validate_date_format a.date_range_begin = true →
      validate_date_format a.date_range_end = true →
      (validate_date_range a.date_range_begin a.date_range_end).1 = true →
      (Src.retrieve_news_items_for_place g a).call.map
          GetNewsCall.last_n_days = some none) := by
  constructor
  · intro h hv
    rw [src_mode_recency_valid g a h hv, delegate_call]
    exact ⟨rfl, rfl⟩
  · intro h hf1 hf2 hr
    rw [src_mode_range_valid g a h hf1 hf2 hr, delegate_call]
    rfl

/-- Claim C2, witness: a valid RECENCY invocation with stray dates supplied
gets both date fields cleared, and a valid RANGE invocation with a stray
`last_n_days` supplied gets it cleared. -/
theorem C2_witness :
    ((Src.retrieve_news_items_for_place okNews argsRecency).call.map
        GetNewsCall.date_range_begin = some none
      ∧ (Src.retrieve_news_items_for_place okNews argsRecency).call.map
        GetNewsCall.date_range_end = some none)
    ∧ (Src.retrieve_news_items_for_place okNews argsRangeValid).call.map
        GetNewsCall.last_n_days = some none :=
  ⟨(C2_mode_exclusivity okNews argsRecency).1 rfl (by decide),
   (C2_mode_exclusivity okNews argsRangeValid).2 rfl (by decide) (by decide) (by decide)⟩

/-- Claim C3: whenever a date-selection validation fails — RECENCY with an
invalid `last_n_days`, or RANGE with a malformed date or a failed ordering
check — the handler returns a string beginning with "Validation error" and
`client.get_news` is not called. -/
theorem C3_validation_blocks_network (g : GetNewsCall → Except String String)
    (a : GetNewsArgs) :
    (a.range_or_recency = some RangeOrRecency.RECENCY →
      (validate_last_n_days a.last_n_days).1 = false →
      (∃ t, (Src.retrieve_news_items_for_place g a).result = "Validation error" ++ t)
      ∧ (Src.retrieve_news_items_for_place g a).call = none)
    ∧ (a.range_or_recency = some RangeOrRecency.RANGE →
      (validate_date_format a.date_range_begin
        && validate_date_format a.date_range_end
        && (validate_date_range a.date_range_begin a.date_range_end).1) = false →
      (∃ t, (Src.retrieve_news_items_for_place g a).result = "Validation error" ++ t)
      ∧ (Src.retrieve_news_items_for_place g a).call = none) := by
  constructor
  · intro h hv
    rw [src_mode_recency_invalid g a h hv]
    refine ⟨⟨" in RangeOrRecency.RECENCY: " ++ (validate_last_n_days a.last_n_days).2, ?_⟩, rfl⟩
    exact append_split "Validation error" " in RangeOrRecency.RECENCY: " _ _ (by decide)
  · intro h hfail
    cases hf1 : validate_date_format a.date_range_begin with
    | false =>
        rw [src_mode_range_badformat g a h (Or.inl hf1)]
        exact ⟨⟨": Invalid date format. Use YYYY-MM-DD", by decide⟩, rfl⟩
    | true =>
        cases hf2 : validate_date_format a.date_range_end with
        | false =>
            rw [src_mode_range_badformat g a h (Or.inr hf2)]
            exact ⟨⟨": Invalid date format. Use YYYY-MM-DD", by decide⟩, rfl⟩
        | true =>
            have hr : (validate_date_range a.date_range_begin a.date_range_end).1 = false := by
              rw [hf1, hf2] at hfail
              simpa using hfail
            rw [src_mode_range_inverted g a h hf1 hf2 hr]
            refine ⟨⟨" in RangeOrRecency.RANGE: "
              ++ (validate_date_range a.date_range_begin a.date_range_end).2, ?_⟩, rfl⟩
            exact append_split "Validation error" " in RangeOrRecency.RANGE: " _ _ (by decide)

/-- Claim C3, witness: the invalid-recency invocation and the spec's
inverted-range scenario both yield a validation-error string and no
downstream call. -/
theorem C3_witness :
    ((∃ t, (Src.retrieve_news_items_for_place okNews argsRecencyBad).result
        = "Validation error" ++ t)
      ∧ (Src.retrieve_news_items_for_place okNews argsRecencyBad).call = none)
    ∧ ((∃ t, (Src.retrieve_news_items_for_place okNews argsRangeInverted).result
        = "Validation error" ++ t)
      ∧ (Src.retrieve_news_items_for_place okNews argsRangeInverted).call = none) :=
  ⟨(C3_validation_blocks_network okNews argsRecencyBad).1 rfl (by decide),
   (C3_validation_blocks_network okNews argsRangeInverted).2 rfl (by decide)⟩

/-- Claim C4: whenever the handler reaches delegation (a call was recorded)
and the collaborator raises, the exception is caught and converted to the
boundary string; the handler is a total function into `String`, so no
exception passes it. -/
theorem C4_exception_boundary (g : GetNewsCall → Except String String) (a : GetNewsArgs)
    (c : GetNewsCall) (e : String)
    (hc : (Src.retrieve_news_items_for_place g a).call = some c)
    (he : g c = Except.error e) :
    (Src.retrieve_news_items_for_place g a).result = "Failed to retrieve news: " ++ e := by
  cases hm : a.range_or_recency with
  | none =>
      rw [src_mode_none g a hm] at hc ⊢
      exact delegate_error_result g a _ _ _ c e hc he
  | some mode =>
      cases mode with
      | RECENCY =>
          cases hv : (validate_last_n_days a.last_n_days).1 with
          | false =>
              rw [src_mode_recency_invalid g a hm hv] at hc
              simp at hc
          | true =>
              rw [src_mode_recency_valid g a hm hv] at hc ⊢
              exact delegate_error_result g a _ _ _ c e hc he
      | RANGE =>
          cases hf1 : validate_date_format a.date_range_begin with
          | false =>
              rw [src_mode_range_badformat g a hm (Or.inl hf1)] at hc
              simp at hc
          | true =>
              cases hf2 : validate_date_format a.date_range_end with
              | false =>
                  rw [src_mode_range_badformat g a hm (Or.inr hf2)] at hc
                  simp at hc
              | true =>
                  cases hr : (validate_date_range a.date_range_begin a.date_range_end).1 with
                  | false =>
                      rw [src_mode_range_inverted g a hm hf1 hf2 hr] at hc
                      simp at hc
                  | true =>
                      rw [src_mode_range_valid g a hm hf1 hf2 hr] at hc ⊢
                      exact delegate_error_result g a _ _ _ c e hc he

/-- Claim C4, witness: a collaborator that raises "boom" on every call makes
the concrete no-mode invocation return the boundary string. -/
theorem C4_witness :
    (Src.retrieve_news_items_for_place failNews argsPassThrough).result
      = "Failed to retrieve news: " ++ "boom" :=
  C4_exception_boundary failNews argsPassThrough
    (normalizedCall argsPassThrough (some 5) (some "2024-01-01") (some "2024-02-02"))
    "boom" (by decide) rfl

/-- Every delegated call carries the caller's `place_id` unchanged, the wire
string of `place_type`, the wire string of `range_or_recency` when present,
and the topic list converted value-wise to wire strings (with Python
truthiness collapsing an absent or empty list to `None`). -/
theorem src_call_shape (g : GetNewsCall → Except String String) (a : GetNewsArgs)
    (c : GetNewsCall) (hc : (Src.retrieve_news_items_for_place g a).call = some c) :
    c.place_id = a.place_id
    ∧ c.place_type = a.place_type.value
    ∧ c.range_or_recency = Option.map RangeOrRecency.value a.range_or_recency
    ∧ c.news_topics = (match a.news_topics with
        | some topics => if topics.isEmpty then none else some (topics.map NewsTopic.value)
        | none => none) := by
  cases hm : a.range_or_recency with
  | none =>
      rw [src_mode_none g a hm] at hc
      have hcn := delegate_call_inv g a _ _ _ c hc
      subst hcn
      simp [normalizedCall, hm]
  | some mode =>
      cases mode with
      | RECENCY =>
          cases hv : (validate_last_n_days a.last_n_days).1 with
          | false =>
              rw [src_mode_recency_invalid g a hm hv] at hc
              simp at hc
          | true =>
              rw [src_mode_recency_valid g a hm hv] at hc
              have hcn := delegate_call_inv g a _ _ _ c hc
              subst hcn
              simp [normalizedCall, hm]
      | RANGE =>
          cases hf1 : validate_date_format a.date_range_begin with
          | false =>
              rw [src_mode_range_badformat g a hm (Or.inl hf1)] at hc
              simp at hc
          | true =>
              cases hf2 : validate_date_format a.date_range_end with
              | false =>
                  rw [src_mode_range_badformat g a hm (Or.inr hf2)] at hc
                  simp at hc
              | true =>
                  cases hr : (validate_date_range a.date_range_begin a.date_range_end).1 with
                  | false =>
                      rw [src_mode_range_inverted g a hm hf1 hf2 hr] at hc
                      simp at hc
                  | true =>
                      rw [src_mode_range_valid g a hm hf1 hf2 hr] at hc
                      have hcn := delegate_call_inv g a _ _ _ c hc
                      subst hcn
                      simp [normalizedCall, hm]

/-- Claim C5: the enumeration-to-wire translation is exactly the fixed
mapping of spec §6 — four place types to "PR"/"CTY"/"AU"/"LAU", two modes to
"RANGE"/"RECENCY", five topics to their camel-case codes — and every
delegated call carries `place_type.value`, `range_or_recency`'s value when
present, and the value-wise translation of the topics. -/
theorem C5_enum_translation (g : GetNewsCall → Except String String) (a : GetNewsArgs)
    (c : GetNewsCall) (hc : (Src.retrieve_news_items_for_place g a).call = some c) :
    (PlaceTypeNews.value PlaceTypeNews.PLANNING_REGIONS = "PR"
      ∧ PlaceTypeNews.value PlaceTypeNews.COUNTY = "CTY"
      ∧ PlaceTypeNews.value PlaceTypeNews.ADMINISTRATIVE_UNIT = "AU"
      ∧ PlaceTypeNews.value PlaceTypeNews.LOCAL_ADMINISTRATIVE_UNITS = "LAU")
    ∧ (RangeOrRecency.value RangeOrRecency.RANGE = "RANGE"
      ∧ RangeOrRecency.value RangeOrRecency.RECENCY = "RECENCY")
    ∧ (NewsTopic.value NewsTopic.BATTERY_STORAGE = "batteryStorage"
      ∧ NewsTopic.value NewsTopic.GRID_EXPANSION = "gridExpansion"
      ∧ NewsTopic.value NewsTopic.SOLAR = "solar"
      ∧ NewsTopic.value NewsTopic.HYDROGEN = "hydrogen"
      ∧ NewsTopic.value NewsTopic.WIND = "wind")
    ∧ c.place_type = a.place_type.value
    ∧ c.range_or_recency = Option.map RangeOrRecency.value a.range_or_recency
    ∧ c.news_topics = (match a.news_topics with
        | some topics => if topics.isEmpty then none else some (topics.map NewsTopic.value)
        | none => none) := by
  have hs := src_call_shape g a c hc
  exact ⟨⟨rfl, rfl, rfl, rfl⟩, ⟨rfl, rfl⟩, ⟨rfl, rfl, rfl, rfl, rfl⟩,
    hs.2.1, hs.2.2.1, hs.2.2.2⟩

/-- Claim C5, witness at the RECENCY invocation carrying two topics. -/
theorem C5_witness :
    (PlaceTypeNews.value PlaceTypeNews.PLANNING_REGIONS = "PR"
      ∧ PlaceTypeNews.value PlaceTypeNews.COUNTY = "CTY"
      ∧ PlaceTypeNews.value PlaceTypeNews.ADMINISTRATIVE_UNIT = "AU"
      ∧ PlaceTypeNews.value PlaceTypeNews.LOCAL_ADMINISTRATIVE_UNITS = "LAU")
    ∧ (RangeOrRecency.value RangeOrRecency.RANGE = "RANGE"
      ∧ RangeOrRecency.value RangeOrRecency.RECENCY = "RECENCY")
    ∧ (NewsTopic.value NewsTopic.BATTERY_STORAGE = "batteryStorage"
      ∧ NewsTopic.value NewsTopic.GRID_EXPANSION = "gridExpansion"
      ∧ NewsTopic.value NewsTopic.SOLAR = "solar"
      ∧ NewsTopic.value NewsTopic.HYDROGEN = "hydrogen"
      ∧ NewsTopic.value NewsTopic.WIND = "wind")
    ∧ (normalizedCall argsRecency (some 7) none none).place_type
        = argsRecency.place_type.value
    ∧ (normalizedCall argsRecency (some 7) none none).range_or_recency
        = Option.map RangeOrRecency.value argsRecency.range_or_recency
    ∧ (normalizedCall argsRecency (some 7) none none).news_topics
        = (match argsRecency.news_topics with
            | some topics => if topics.isEmpty then none else some (topics.map NewsTopic.value)
            | none => none) :=
  C5_enum_translation okNews argsRecency
    (normalizedCall argsRecency (some 7) none none) (by decide)

/-- Claim C6: under RANGE, date well-formedness is checked before ordering —
a malformed date yields the format-error string naming the expected format
and no call; the ordering-error string appears exactly when both dates are
well-formed and the range check fails; and when all checks pass the handler
delegates with `last_n_days` cleared. -/
theorem C6_format_checked_before_ordering (g : GetNewsCall → Except String String)
    (a : GetNewsArgs) (h : a.range_or_recency = some RangeOrRecency.RANGE) :
    (validate_date_format a.date_range_begin = false
        ∨ validate_date_format a.date_range_end = false →
      (Src.retrieve_news_items_for_place g a).result
        = "Validation error: Invalid date format. Use YYYY-MM-DD"
      ∧ (Src.retrieve_news_items_for_place g a).call = none)
    ∧ (validate_date_format a.date_range_begin = true →
      validate_date_format a.date_range_end = true →
      (validate_date_range a.date_range_begin a.date_range_end).1 = false →
      (Src.retrieve_news_items_for_place g a).result
        = "Validation error in RangeOrRecency.RANGE: "
          ++ (validate_date_range a.date_range_begin a.date_range_end).2
      ∧ (Src.retrieve_news_items_for_place g a).call = none)
    ∧ (validate_date_format a.date_range_begin = true →
      validate_date_format a.date_range_end = true →
      (validate_date_range a.date_range_begin a.date_range_end).1 = true →
      (Src.retrieve_news_items_for_place g a).call
        = some (normalizedCall a none a.date_range_begin a.date_range_end)) := by
  refine ⟨?_, ?_, ?_⟩
  · intro hf
    rw [src_mode_range_badformat g a h hf]
    exact ⟨rfl, rfl⟩
  · intro hf1 hf2 hr
    rw [src_mode_range_inverted g a h hf1 hf2 hr]
    exact ⟨rfl, rfl⟩
  · intro hf1 hf2 hr
    rw [src_mode_range_valid g a h hf1 hf2 hr, delegate_call]

/-- Claim C6, witness: the spec's malformed-date scenario returns the format
error with no call, the inverted-range scenario returns the ordering error
with no call, and a valid range delegates. -/
theorem C6_witness :
    ((Src.retrieve_news_items_for_place okNews argsRangeBadFormat).result
        = "Validation error: Invalid date format. Use YYYY-MM-DD"
      ∧ (Src.retrieve_news_items_for_place okNews argsRangeBadFormat).call = none)
    ∧ ((Src.retrieve_news_items_for_place okNews argsRangeInverted).result
        = "Validation error in RangeOrRecency.RANGE: "
          ++ (validate_date_range argsRangeInverted.date_range_begin
                argsRangeInverted.date_range_end).2
      ∧ (Src.retrieve_news_items_for_place okNews argsRangeInverted).call = none)
    ∧ (Src.retrieve_news_items_for_place okNews argsRangeValid).call
        = some (normalizedCall argsRangeValid none
            argsRangeValid.date_range_begin argsRangeValid.date_range_end) :=
  ⟨(C6_format_checked_before_ordering okNews argsRangeBadFormat rfl).1 (Or.inl (by decide)),
   (C6_format_checked_before_ordering okNews argsRangeInverted rfl).2.1
     (by decide) (by decide) (by decide),
   (C6_format_checked_before_ordering okNews argsRangeValid rfl).2.2
     (by decide) (by decide) (by decide)⟩

/-- Claim C7, counterexample: the handler performs no non-emptiness check on
`place_id` — with `place_id = ""` the invocation produces no validation
error and `client.get_news` is called with the empty id. -/
theorem C7_counterexample :
    (Src.retrieve_news_items_for_place okNews argsEmptyPlace).call.map
        GetNewsCall.place_id = some ""
    ∧ (Src.retrieve_news_items_for_place okNews argsEmptyPlace).result = "payload" := by
  decide

/-- Claim C7 as amended: `place_id` is not validated; it is forwarded to
`client.get_news` unchanged — in particular an empty `place_id` reaches the
network call rather than producing a validation error (on the no-mode path
the call is always made). -/
theorem C7_place_id_not_validated (g : GetNewsCall → Except String String)
    (a : GetNewsArgs) :
    (∀ c, (Src.retrieve_news_items_for_place g a).call = some c →
      c.place_id = a.place_id)
    ∧ (a.range_or_recency = none →
      (Src.retrieve_news_items_for_place g a).call
        = some (normalizedCall a a.last_n_days a.date_range_begin a.date_range_end)) := by
  constructor
  · intro c hc
    exact (src_call_shape g a c hc).1
  · intro h
    rw [src_mode_none g a h, delegate_call]

/-- Claim C7, witness for the amended theorem: the empty-id invocation
delegates, and the delegated call carries the empty id. -/
theorem C7_witness :
    (normalizedCall argsEmptyPlace none none none).place_id = argsEmptyPlace.place_id
    ∧ (Src.retrieve_news_items_for_place okNews argsEmptyPlace).call
        = some (normalizedCall argsEmptyPlace none none none) :=
  ⟨(C7_place_id_not_validated okNews argsEmptyPlace).1
      (normalizedCall argsEmptyPlace none none none)
      ((C7_place_id_not_validated okNews argsEmptyPlace).2 rfl),
   (C7_place_id_not_validated okNews argsEmptyPlace).2 rfl⟩

/-- Claim C8: supplying `news_topics` as the empty list behaves exactly like
not supplying it — the whole outcome is identical, no error is produced, and
the delegated call carries `news_topics = None`, never an empty list. -/
theorem C8_empty_topics_like_absent (g : GetNewsCall → Except String String)
    (a : GetNewsArgs) :
    Src.retrieve_news_items_for_place g { a with news_topics := some [] }
      = Src.retrieve_news_items_for_place g { a with news_topics := none }
    ∧ (∀ c, (Src.retrieve_news_items_for_place g
          { a with news_topics := some [] }).call = some c →
        c.news_topics = none) := by
  constructor
  · obtain ⟨pid, pt, ror, ldn0, drb0, dre0, nt⟩ := a
    have hd : ∀ (ldn : Option Int) (drb dre : Option String),
        delegate g ⟨pid, pt, ror, ldn0, drb0, dre0, some []⟩ ldn drb dre
          = delegate g ⟨pid, pt, ror, ldn0, drb0, dre0, none⟩ ldn drb dre := by
      intro ldn drb dre
      unfold delegate
      rfl
    cases ror with
    | none =>
        rw [src_mode_none g ⟨pid, pt, none, ldn0, drb0, dre0, some []⟩ rfl,
          src_mode_none g ⟨pid, pt, none, ldn0, drb0, dre0, none⟩ rfl]
        exact hd _ _ _
    | some mode =>
        cases mode with
        | RECENCY =>
            cases hv : (validate_last_n_days ldn0).1 with
            | false =>
                rw [src_mode_recency_invalid g
                    ⟨pid, pt, some RangeOrRecency.RECENCY, ldn0, drb0, dre0, some []⟩ rfl hv,
                  src_mode_recency_invalid g
                    ⟨pid, pt, some RangeOrRecency.RECENCY, ldn0, drb0, dre0, none⟩ rfl hv]
            | true =>
                rw [src_mode_recency_valid g
                    ⟨pid, pt, some RangeOrRecency.RECENCY, ldn0, drb0, dre0, some []⟩ rfl hv,
                  src_mode_recency_valid g
                    ⟨pid, pt, some RangeOrRecency.RECENCY, ldn0, drb0, dre0, none⟩ rfl hv]
                exact hd _ _ _
        | RANGE =>
            cases hf1 : validate_date_format drb0 with
            | false =>
                rw [src_mode_range_badformat g
                    ⟨pid, pt, some RangeOrRecency.RANGE, ldn0, drb0, dre0, some []⟩ rfl
                    (Or.inl hf1),
                  src_mode_range_badformat g
                    ⟨pid, pt, some RangeOrRecency.RANGE, ldn0, drb0, dre0, none⟩ rfl
                    (Or.inl hf1)]
            | true =>
                cases hf2 : validate_date_format dre0 with
                | false =>
                    rw [src_mode_range_badformat g
                        ⟨pid, pt, some RangeOrRecency.RANGE, ldn0, drb0, dre0, some []⟩ rfl
                        (Or.inr hf2),
                      src_mode_range_badformat g
                        ⟨pid, pt, some RangeOrRecency.RANGE, ldn0, drb0, dre0, none⟩ rfl
                        (Or.inr hf2)]
                | true =>
                    cases hr : (validate_date_range drb0 dre0).1 with
                    | false =>
                        rw [src_mode_range_inverted g
                            ⟨pid, pt, some RangeOrRecency.RANGE, ldn0, drb0, dre0, some []⟩ rfl
                            hf1 hf2 hr,
                          src_mode_range_inverted g
                            ⟨pid, pt, some RangeOrRecency.RANGE, ldn0, drb0, dre0, none⟩ rfl
                            hf1 hf2 hr]
                    | true =>
                        rw [src_mode_range_valid g
                            ⟨pid, pt, some RangeOrRecency.RANGE, ldn0, drb0, dre0, some []⟩ rfl
                            hf1 hf2 hr,
                          src_mode_range_valid g
                            ⟨pid, pt, some RangeOrRecency.RANGE, ldn0, drb0, dre0, none⟩ rfl
                            hf1 hf2 hr]
                        exact hd _ _ _
  · intro c hc
    exact (src_call_shape g { a with news_topics := some [] } c hc).2.2.2

/-- Claim C8, witness: on the concrete no-mode invocation, empty-list topics
give the same outcome as absent topics, and the delegated call carries
`none`. -/
theorem C8_witness :
    Src.retrieve_news_items_for_place okNews
        { argsPassThrough with news_topics := some [] }
      = Src.retrieve_news_items_for_place okNews
        { argsPassThrough with news_topics := none }
    ∧ (normalizedCall { argsPassThrough with news_topics := some [] }
        (some 5) (some "2024-01-01") (some "2024-02-02")).news_topics = none :=
  ⟨(C8_empty_topics_like_absent okNews argsPassThrough).1,
   (C8_empty_topics_like_absent okNews argsPassThrough).2
     (normalizedCall { argsPassThrough with news_topics := some [] }
       (some 5) (some "2024-01-01") (some "2024-02-02")) (by decide)⟩

/-- Taxonomy of delegation results: either the boundary-error string, or the
collaborator's payload unmodified together with the recorded call. -/
theorem delegate_taxonomy (g : GetNewsCall → Except String String) (a : GetNewsArgs)
    (ldn : Option Int) (drb dre : Option String) :
    (∃ t, (delegate g a ldn drb dre).result = "Failed to retrieve news: " ++ t)
    ∨ (∃ c, (delegate g a ldn drb dre).call = some c
        ∧ g c = Except.ok (delegate g a ldn drb dre).result) := by
  cases hg : g (normalizedCall a ldn drb dre) with
  | ok r =>
      right
      refine ⟨normalizedCall a ldn drb dre, ?_, ?_⟩
      · rw [delegate_ok g a ldn drb dre r hg]
      · rw [delegate_ok g a ldn drb dre r hg]
        exact hg
  | error e =>
      left
      exact ⟨e, by rw [delegate_err g a ldn drb dre e hg]⟩

/-- Claim C9: every handler result is one of three shapes — a string
beginning with "Validation error" (failed validation), a string beginning
with "Failed to retrieve news: " (caught exception), or the collaborator's
success payload returned unmodified alongside the recorded call. -/
theorem C9_result_taxonomy (g : GetNewsCall → Except String String) (a : GetNewsArgs) :
    (∃ t, (Src.retrieve_news_items_for_place g a).result = "Validation error" ++ t)
    ∨ (∃ t, (Src.retrieve_news_items_for_place g a).result
        = "Failed to retrieve news: " ++ t)
    ∨ (∃ c, (Src.retrieve_news_items_for_place g a).call = some c
        ∧ g c = Except.ok (Src.retrieve_news_items_for_place g a).result) := by
  cases hm : a.range_or_recency with
  | none =>
      rw [src_mode_none g a hm]
      rcases delegate_taxonomy g a a.last_n_days a.date_range_begin a.date_range_end
        with h | h
      · exact Or.inr (Or.inl h)
      · exact Or.inr (Or.inr h)
  | some mode =>
      cases mode with
      | RECENCY =>
          cases hv : (validate_last_n_days a.last_n_days).1 with
          | false =>
              left
              rw [src_mode_recency_invalid g a hm hv]
              refine ⟨" in RangeOrRecency.RECENCY: "
                ++ (validate_last_n_days a.last_n_days).2, ?_⟩
              exact append_split "Validation error" " in RangeOrRecency.RECENCY: " _ _
                (by decide)
          | true =>
              rw [src_mode_recency_valid g a hm hv]
              exact Or.inr (delegate_taxonomy g a _ _ _)
      | RANGE =>
          cases hf1 : validate_date_format a.date_range_begin with
          | false =>
              left
              rw [src_mode_range_badformat g a hm (Or.inl hf1)]
              exact ⟨": Invalid date format. Use YYYY-MM-DD", by decide⟩
          | true =>
              cases hf2 : validate_date_format a.date_range_end with
              | false =>
                  left
                  rw [src_mode_range_badformat g a hm (Or.inr hf2)]
                  exact ⟨": Invalid date format. Use YYYY-MM-DD", by decide⟩
              | true =>
                  cases hr : (validate_date_range a.date_range_begin a.date_range_end).1 with
                  | false =>
                      left
                      rw [src_mode_range_inverted g a hm hf1 hf2 hr]
                      refine ⟨" in RangeOrRecency.RANGE: "
                        ++ (validate_date_range a.date_range_begin a.date_range_end).2, ?_⟩
                      exact append_split "Validation error" " in RangeOrRecency.RANGE: " _ _
                        (by decide)
                  | true =>
                      rw [src_mode_range_valid g a hm hf1 hf2 hr]
                      exact Or.inr (delegate_taxonomy g a _ _ _)

/-- Claim C10: the two handler implementations agree on their shared core —
for every parameter set and every collaborator behavior they produce the same
outcome (same validation verdict and error string, same delegated normalized
call, same result).  The sources differ only in logging and in where the
client is read from the lifespan context, neither of which carries modelled
state. -/
theorem C10_handlers_equivalent (g : GetNewsCall → Except String String)
    (a : GetNewsArgs) :
    Src.retrieve_news_items_for_place g a
      = McpNefino.retrieve_news_items_for_place g a := rfl
